import Mathlib

/-!
Shallow embedding of the POS-1.0 backend (FastAPI + SQLAlchemy) used to check
the natural-language specification against the code.

Source files embedded:
  * `backend/models.py`      — the data model (Product, Sales, Order, User,
    Subscription, OnboardingEvent rows);
  * `routers/sales.py`       — `record_sale`, `get_sales_items`;
  * `routers/product.py`     — `add_product`, `get_products`, `update_stock`;
  * `routers/auth.py`        — `login_user`, `logout_user`;
  * `routers/onboarding.py`  — `onboarding_status`;
  * `backend/auth_utils.py`  — token issue / verify and the in-memory blacklist.

Modelling conventions:
  * Python floats (prices, totals) are embedded as exact rationals `ℚ`; no
    claim under consideration depends on float rounding.  The only float
    rounding in scope (`round(total_profit, 2)` applied for display in the
    response of `record_sale`) is left out of the response model.
  * SQLAlchemy sessions: a `commit` makes the pending changes durable.  The
    route handlers close the session without commit when an exception is
    raised, so pending (uncommitted) changes are discarded; the embedding of
    `record_sale` therefore returns, on error, the state as of the last
    `db.commit()` that actually ran.
  * Autoincrement primary keys are modelled as (maximum existing id) + 1,
    matching the sequential ids the sqlite backend hands out.
-/

namespace POS

/-- `models.Product` (backend/models.py): name unique per business,
`price` the selling price, `buying_price` nullable, `quantity` the stock. -/
structure Product where
  id : Nat
  name : String
  businessId : Nat
  price : ℚ
  buyingPrice : Option ℚ
  quantity : Int
deriving DecidableEq

/-- `models.Sales` (backend/models.py): one order line item. -/
structure SalesRow where
  id : Nat
  orderId : Nat
  productId : Nat
  quantity : Int
  totalPrice : ℚ
  isDemo : Bool
deriving DecidableEq

/-- `models.Order` (backend/models.py). -/
structure Order where
  id : Nat
  orderCode : String
  businessId : Nat
  clientName : Option String
  salesPerson : Option String
  totalAmount : ℚ
deriving DecidableEq

/-- `models.User` (backend/models.py): `businessId` is nullable (superadmin). -/
structure UserRow where
  id : Nat
  businessId : Option Nat
  username : String
  passwordHash : String
  role : String
  isActive : Bool
  lastLogin : Option Int
deriving DecidableEq

/-- `models.Subscription` (backend/models.py): timestamps as integers. -/
structure SubscriptionRow where
  id : Nat
  businessId : Option Nat
  status : String
  startDate : Int
  endDate : Int
  isActive : Bool
deriving DecidableEq

/-- `models.OnboardingEvent` (backend/models.py): one row per
(business, event) thanks to the `uq_onboarding_event` unique constraint. -/
structure OnboardingEventRow where
  businessId : Nat
  event : String
deriving DecidableEq

/-- The relational store, one list per table the claims touch. -/
structure DB where
  users : List UserRow
  subscriptions : List SubscriptionRow
  products : List Product
  orders : List Order
  sales : List SalesRow
  events : List OnboardingEventRow
deriving DecidableEq

/-- HTTP-level error outcomes raised by the route handlers. -/
inductive HErr where
  | notFound (detail : String)
  | badRequest (detail : String)
  | forbidden (detail : String)
  | unauthorized (detail : String)
  | internalError (detail : String)
deriving DecidableEq

/-- `SaleItem` request model (routers/sales.py). -/
structure SaleItem where
  productName : String
  quantity : Int
  sellingPrice : ℚ
deriving DecidableEq

/-- `SaleRequest` request model (routers/sales.py). -/
structure SaleRequest where
  clientName : Option String
  salesPerson : Option String
  items : List SaleItem
deriving DecidableEq

/-- Response body of `record_sale` (total_profit is returned rounded for
display in the Python code; the model keeps the exact value). -/
structure SaleResponse where
  message : String
  orderCode : String
  totalAmount : ℚ
  totalProfit : ℚ
  isDemo : Bool
deriving DecidableEq

/-- Query at sales.py:84-92: does the business already have a non-demo
sales row (Sales ⋈ Order on order_id, filtered by business and
`is_demo == False`)? -/
def hasRealSale (db : DB) (b : Nat) : Bool :=
  db.sales.any fun s =>
    !s.isDemo && db.orders.any (fun o => o.id == s.orderId && o.businessId == b)

/-- Predicate of the delete at sales.py:104-107: a demo sales row whose
parent order belongs to business `b`. -/
def isDemoSaleRowOf (orders : List Order) (b : Nat) (s : SalesRow) : Bool :=
  s.isDemo && orders.any (fun o => o.id == s.orderId && o.businessId == b)

/-- The delete at sales.py:104-108: removes the matching `Sales` rows only
(the join is only used for filtering; the parent `Order` rows stay). -/
def purgeDemo (db : DB) (b : Nat) : DB :=
  { db with sales := db.sales.filter (fun s => !isDemoSaleRowOf db.orders b s) }

/-- `SELECT id FROM orders ORDER BY id DESC LIMIT 1` (sales.py:111-113):
the maximum existing order id, 0 when the table is empty. -/
def maxOrderId (db : DB) : Nat :=
  db.orders.foldr (fun o m => max o.id m) 0

/-- Maximum existing sales-row id, for the autoincrement model. -/
def maxSalesId (db : DB) : Nat :=
  db.sales.foldr (fun s m => max s.id m) 0

/-- `f"ORD-{n:05d}"` (sales.py:115). -/
def orderCodeOf (n : Nat) : String :=
  let s := toString n
  "ORD-" ++ String.mk (List.replicate (5 - s.length) '0') ++ s

/-- Lookup at sales.py:133-136: first product matching (name, business_id). -/
def findProduct (ps : List Product) (b : Nat) (name : String) : Option Product :=
  ps.find? (fun p => p.name == name && p.businessId == b)

/-- In-place update of the identity-mapped product row (the session returns
the same mapped object on every query, so the decrement at sales.py:169 is
visible to later lookups in the same request). -/
def updProduct (ps : List Product) (pid : Nat) (f : Product → Product) :
    List Product :=
  ps.map (fun p => if p.id == pid then f p else p)

/-- Session state accumulated by the line-item loop of `record_sale`
(pending, i.e. not yet committed). -/
structure LoopAcc where
  products : List Product
  rows : List SalesRow
  totalAmount : ℚ
  totalProfit : ℚ
  nextSalesId : Nat
deriving DecidableEq

/-- Check at sales.py:156: `product.buying_price is not None and
item.selling_price < product.buying_price`. -/
def priceViolation (p : Product) (s : ℚ) : Bool :=
  match p.buyingPrice with
  | some bp => decide (s < bp)
  | none => false

/-- One iteration of the loop at sales.py:131-181. -/
def processItem (isDemo : Bool) (b oid : Nat) (acc : LoopAcc) (item : SaleItem) :
    Except HErr LoopAcc :=
  match findProduct acc.products b item.productName with
  | none =>
      .error (.notFound ("Product '" ++ item.productName ++ "' not found"))
  | some product =>
      if !isDemo && product.quantity < item.quantity then
        .error (.badRequest ("Not enough stock for '" ++ item.productName ++ "'"))
      else if priceViolation product item.sellingPrice then
        .error (.badRequest
          ("Selling price for '" ++ product.name ++ "' cannot be below buying price"))
      else
        let subtotal := item.sellingPrice * (item.quantity : ℚ)
        let products' :=
          if isDemo then acc.products
          else updProduct acc.products product.id
            (fun p => { p with quantity := p.quantity - item.quantity })
        let bp0 := product.buyingPrice.getD 0
        .ok { products := products'
              rows := acc.rows ++
                [{ id := acc.nextSalesId, orderId := oid, productId := product.id,
                   quantity := item.quantity, totalPrice := subtotal,
                   isDemo := isDemo }]
              totalAmount := acc.totalAmount + subtotal
              totalProfit := acc.totalProfit +
                (item.sellingPrice - bp0) * (item.quantity : ℚ)
              nextSalesId := acc.nextSalesId + 1 }

/-- The loop at sales.py:131-181, aborting at the first failing item. -/
def processItems (isDemo : Bool) (b oid : Nat) :
    List SaleItem → LoopAcc → Except HErr LoopAcc
  | [], acc => .ok acc
  | item :: rest, acc =>
      match processItem isDemo b oid acc item with
      | .error e => .error e
      | .ok acc' => processItems isDemo b oid rest acc'

/-- Modelled from the spec: `backend.onboarding_utils.record_onboarding_event`
is imported by routers/sales.py but the module itself is not among the source
files.  Spec §4.5: "idempotent insert — a unique (business_id, event)
constraint means a duplicate call is a no-op, not an error". -/
def record_onboarding_event (db : DB) (b : Nat) (ev : String) : DB :=
  if db.events.any (fun e => e.businessId == b && e.event == ev) then db
  else { db with events := db.events ++ [{ businessId := b, event := ev }] }

/-- `source == "onboarding" and no prior real sale` (sales.py:78-97). -/
def demoFlag (db : DB) (source : Option String) (b : Nat) : Bool :=
  (source == some "onboarding") && !hasRealSale db b

/-- Outcome of `record_sale`: on error, `committed` is the storage state as
of the last `db.commit()` that ran before the exception (the session is
closed without commit, discarding the rest). -/
inductive RSResult where
  | ok (db : DB) (resp : SaleResponse)
  | error (e : HErr) (committed : DB)
deriving DecidableEq

/-- True when the result is an error. -/
def RSResult.isError : RSResult → Bool
  | .ok _ _ => false
  | .error _ _ => true

/-- The storage state after the call (committed state, both outcomes). -/
def RSResult.stateOf : RSResult → DB
  | .ok db _ => db
  | .error _ db => db

/-- State after the first commit of `record_sale` (sales.py:103-108): the
purge of this business's demo sales rows, skipped for demo sales. -/
def rsAfterPurge (db : DB) (b : Nat) (source : Option String) : DB :=
  if demoFlag db source b then db else purgeDemo db b

/-- `next_number` at sales.py:114: 1 on an empty table, otherwise the
highest existing order id plus one. -/
def rsNextNumber (db1 : DB) : Nat :=
  if db1.orders.isEmpty then 1 else maxOrderId db1 + 1

/-- The order header inserted at sales.py:117-124 (id from the
autoincrement model, `total_amount=0` until the final commit). -/
def rsNewOrder (db1 : DB) (b : Nat) (req : SaleRequest) : Order :=
  { id := rsNextNumber db1, orderCode := orderCodeOf (rsNextNumber db1),
    businessId := b, clientName := req.clientName,
    salesPerson := req.salesPerson, totalAmount := 0 }

/-- State after the second commit of `record_sale` (sales.py:124-126): the
order header is durable before the line-item loop starts. -/
def rsAfterHeader (db : DB) (b : Nat) (source : Option String)
    (req : SaleRequest) : DB :=
  let db1 := rsAfterPurge db b source
  { db1 with orders := db1.orders ++ [rsNewOrder db1 b req] }

/-- The session state the loop starts from. -/
def rsInitAcc (db2 : DB) : LoopAcc :=
  { products := db2.products, rows := [], totalAmount := 0,
    totalProfit := 0, nextSalesId := maxSalesId db2 + 1 }

/-- `record_sale` (routers/sales.py:66-205), for an authenticated user of
business `b` and query parameter `source`. -/
def record_sale (db : DB) (b : Nat) (source : Option String)
    (req : SaleRequest) : RSResult :=
  let demo := demoFlag db source b
  let db1 := rsAfterPurge db b source
  let newOrder := rsNewOrder db1 b req
  let db2 := rsAfterHeader db b source req
  match processItems demo b newOrder.id req.items (rsInitAcc db2) with
  | .error e => .error e db2
  | .ok acc =>
      -- sales.py:183-184: line items, stock updates and the order total
      -- commit together
      let order' := { newOrder with totalAmount := acc.totalAmount }
      let db3 : DB :=
        { db2 with products := acc.products,
                   orders := db1.orders ++ [order'],
                   sales := db2.sales ++ acc.rows }
      let db4 := record_onboarding_event db3 b "sell_product"
      let msg :=
        if demo then
          "Demo sale recorded successfully. Your stock was NOT reduced. " ++
          "When you record your next sale, this demo will be removed automatically."
        else "Order recorded successfully!"
      .ok db4
        { message := msg, orderCode := newOrder.orderCode,
          totalAmount := acc.totalAmount,
          totalProfit := acc.totalProfit, isDemo := demo }

/-- `@validates("price")` hook (backend/models.py:23-27): fires whenever the
`price` attribute is assigned, and compares against the value the
`buying_price` attribute holds at that moment. -/
def validate_price (buyingPrice : Option ℚ) (value : ℚ) : Except String ℚ :=
  match buyingPrice with
  | some bp =>
      if value < bp then .error "Selling price cannot be below buying price"
      else .ok value
  | none => .ok value

/-- Maximum existing product id, for the autoincrement model. -/
def maxProductId (db : DB) : Nat :=
  db.products.foldr (fun p m => max p.id m) 0

/-- `models.Product(name=…, price=…, buying_price=…, quantity=…,
business_id=…)` as called at product.py:51-57: the SQLAlchemy declarative
constructor assigns the keyword arguments in the order they appear at the
call site, and the `validate_price` hook fires when `price` is assigned —
at which point `buying_price` has not been assigned yet (it is None). -/
def product_ctor_add_product (pid : Nat) (name : String) (price : ℚ)
    (buying_price : Option ℚ) (quantity : Int) (b : Nat) :
    Except String Product :=
  match validate_price none price with
  | .error e => .error e
  | .ok v =>
      .ok { id := pid, name := name, businessId := b, price := v,
            buyingPrice := buying_price, quantity := quantity }

/-- `add_product` (routers/product.py:41-64): constructs the row, inserts and
commits; any exception (including the (name, business_id) unique-constraint
violation at flush time) is turned into a 400 with the exception text. -/
def add_product (db : DB) (b : Nat) (name : String) (price : ℚ)
    (buying_price : ℚ) (quantity : Int) : Except HErr (DB × Nat) :=
  let pid := maxProductId db + 1
  match product_ctor_add_product pid name price (some buying_price) quantity b with
  | .error e => .error (.badRequest e)
  | .ok p =>
      if db.products.any (fun q => q.name == name && q.businessId == b) then
        .error (.badRequest "UNIQUE constraint failed: products.name, products.business_id")
      else
        .ok ({ db with products := db.products ++ [p] }, pid)

/-- `get_products` (routers/product.py:69-81): all products filtered by the
caller's business_id. -/
def get_products (db : DB) (b : Nat) : List Product :=
  db.products.filter (fun p => p.businessId == b)

/-- `update_stock` (routers/product.py:86-108): looks the product up by
(id, business_id); patches quantity, then price (the `validate_price` hook
fires on the price assignment, against the product's current buying_price),
then buying_price (no hook); commits.  The `ValueError` from the hook is not
caught in the route, so it surfaces as a 500 with nothing committed. -/
def update_stock (db : DB) (b : Nat) (pid : Nat) (q? : Option Int)
    (price? : Option ℚ) (bp? : Option ℚ) : Except HErr String × DB :=
  match db.products.find? (fun p => p.id == pid && p.businessId == b) with
  | none => (.error (.notFound "Product not found"), db)
  | some product =>
      let q := q?.getD product.quantity
      match validate_price product.buyingPrice (price?.getD product.price) with
      | .error e => (.error (.internalError e), db)
      | .ok v =>
          let nbp := match bp? with
            | some x => some x
            | none => product.buyingPrice
          (.ok "Product updated successfully",
           { db with products := (updProduct db.products product.id
               (fun p => { p with quantity := q, price := v, buyingPrice := nbp })) })

/-- Join of `get_sales_items` (routers/sales.py:219-226): Sales ⋈ Order ⋈
Product, filtered by the caller's business_id (the `order_by id desc` only
permutes the list and is dropped here). -/
def salesItemsJoined (db : DB) (b : Nat) : List (SalesRow × Order × Product) :=
  (db.sales.filterMap fun s =>
    match db.orders.find? (fun o => o.id == s.orderId) with
    | none => none
    | some o =>
        match db.products.find? (fun p => p.id == s.productId) with
        | none => none
        | some p => some (s, o, p)).filter
    (fun t => t.2.1.businessId == b)

/-- One row of the flattened sales report (routers/sales.py:230-241). -/
structure ReportRow where
  orderCode : String
  clientName : Option String
  salesPerson : Option String
  productName : String
  quantity : Int
  subtotal : ℚ
  buyingPrice : ℚ
  isDemo : Bool
deriving DecidableEq

/-- `get_sales_items` (routers/sales.py:210-243). -/
def get_sales_items (db : DB) (b : Nat) : List ReportRow :=
  (salesItemsJoined db b).map fun t =>
    { orderCode := t.2.1.orderCode, clientName := t.2.1.clientName,
      salesPerson := t.2.1.salesPerson, productName := t.2.2.name,
      quantity := t.1.quantity, subtotal := t.1.totalPrice,
      buyingPrice := t.2.2.buyingPrice.getD 0, isDemo := t.1.isDemo }

/-- Checklist computed by `onboarding_status` (routers/onboarding.py:54-59). -/
structure Steps where
  add_product : Bool
  update_stock : Bool
  sell_product : Bool
  view_report : Bool
deriving DecidableEq

/-- Reality check at onboarding.py:34-36: any `Order` row of the business,
demo or not (orders carry no demo flag). -/
def hasAnyOrder (db : DB) (b : Nat) : Bool :=
  db.orders.any (fun o => o.businessId == b)

/-- Event check at onboarding.py:41-49. -/
def eventLogged (db : DB) (b : Nat) (ev : String) : Bool :=
  db.events.any (fun e => e.businessId == b && e.event == ev)

/-- `onboarding_status` (routers/onboarding.py:17-64): the steps and the
progress percentage (`int((completed / 4) * 100)` = completed × 25). -/
def onboarding_status (db : DB) (b : Nat) : Steps × Nat :=
  let hasProduct := db.products.any (fun p => p.businessId == b)
  let hasSale := hasAnyOrder db b
  let steps : Steps :=
    { add_product := hasProduct,
      update_stock := eventLogged db b "view_stock" || hasProduct,
      sell_product := hasSale,
      view_report := eventLogged db b "view_report" || hasSale }
  let completed := (if steps.add_product then 1 else 0) +
    (if steps.update_stock then 1 else 0) +
    (if steps.sell_product then 1 else 0) +
    (if steps.view_report then 1 else 0)
  (steps, completed * 25)

/-!  Identity & Session (backend/auth_utils.py, routers/auth.py).

`jwt.encode(payload, SECRET_KEY, HS256)` is modelled as the payload paired
with the signing secret; `jwt.decode` checks the secret and rejects a token
whose `exp` is not in the future.  bcrypt hashing is modelled as an
injective encoding of the password (`pwd_hash`), with verification by
equality — none of the claims depend on the hash itself.  -/

/-- The server-side signing secret (an opaque constant). -/
def secretKey : String := "SECRET_KEY"

/-- A signed session token: the JWT payload plus the signature. -/
structure Token where
  userId : Nat
  username : String
  businessId : Option Nat
  role : String
  exp : Int
  sig : String
deriving DecidableEq

/-- `create_access_token` (auth_utils.py:22-26) with the default TTL of
`ACCESS_TOKEN_EXPIRE_MINUTES = 30`. -/
def create_access_token (userId : Nat) (username : String)
    (businessId : Option Nat) (role : String) (now : Int) : Token :=
  { userId := userId, username := username, businessId := businessId,
    role := role, exp := now + 30 * 60, sig := secretKey }

/-- bcrypt hashing modelled as an injective encoding. -/
def pwd_hash (password : String) : String := "bcrypt$" ++ password

/-- `pwd_context.verify`. -/
def pwd_verify (password stored : String) : Bool := pwd_hash password == stored

/-- `verify_token` (auth_utils.py:31-47): missing or blacklisted cookie
fails, then the signature and expiry are checked (`jose` rejects a token
whose exp is not after now).  The 401-versus-redirect split is collapsed
into the failure outcome. -/
def verify_token (blacklist : List Token) (cookie : Option Token)
    (now : Int) : Option Token :=
  match cookie with
  | none => none
  | some t =>
      if t ∈ blacklist then none
      else if t.sig == secretKey && decide (now < t.exp) then some t
      else none

/-- `blacklist_token` (auth_utils.py:28-29).  Defined in the source but —
as the step relation below shows — never called by any route. -/
def blacklist_token (blacklist : List Token) (t : Token) : List Token :=
  t :: blacklist

/-- Outcome of `login_user`: a redirect with the session cookie, or an HTTP
error.  The route wraps its whole body in `try/except Exception`, which also
catches its own `HTTPException`s and re-raises them as status 400 with
`str(e)` (= `"<status>: <detail>"`) as the detail. -/
inductive LoginOutcome where
  | ok (redirect : String) (cookie : Token)
  | err (status : Nat) (detail : String)
deriving DecidableEq

/-- Update of the subscription row identity-mapped by the session. -/
def updSubscription (subs : List SubscriptionRow) (sid : Nat)
    (f : SubscriptionRow → SubscriptionRow) : List SubscriptionRow :=
  subs.map (fun s => if s.id == sid then f s else s)

/-- Update of the user row identity-mapped by the session. -/
def updUser (users : List UserRow) (uid : Nat)
    (f : UserRow → UserRow) : List UserRow :=
  users.map (fun u => if u.id == uid then f u else u)

/-- Body of `login_user` before the outer exception handler: either a
redirect+cookie, or the HTTPException (status, detail) raised inside the
`try`.  Every mutation in the body is followed by `db.commit()`, so the
returned DB is the committed state even on the raising paths. -/
def login_body (db : DB) (username password : String) (now : Int) :
    (Except (Nat × String) (String × Token)) × DB :=
  match db.users.find? (fun u => u.username == username) with
  | none => (.error (400, "Invalid username or password"), db)
  | some user =>
      if !pwd_verify password user.passwordHash then
        (.error (400, "Invalid username or password"), db)
      else if user.role == "superadmin" then
        -- auth.py:206-231: superadmin bypasses the subscription gate
        let db' := { db with users := (updUser db.users user.id
          (fun u => { u with isActive := true, lastLogin := some now })) }
        (.ok ("/superadmin/admin_panel",
          create_access_token user.id user.username user.businessId user.role now), db')
      else
        match db.subscriptions.find? (fun s => s.businessId == user.businessId) with
        | none => (.error (400, "Subscription record missing. Contact support."), db)
        | some sub =>
            if sub.status == "suspended" then
              (.error (403, "Your account is suspended."), db)
            else if sub.status == "trial" && decide (sub.endDate < now) then
              -- auth.py:245-249: write-through mutation committed before raising
              let db' := { db with subscriptions := (updSubscription db.subscriptions sub.id
                (fun s => { s with status := "expired", isActive := false })) }
              (.error (403, "Your trial has expired."), db')
            else if sub.status == "active" && decide (sub.endDate < now) then
              let db' := { db with subscriptions := (updSubscription db.subscriptions sub.id
                (fun s => { s with status := "expired", isActive := false })) }
              (.error (403, "Your subscription has expired."), db')
            else
              let db' := { db with users := (updUser db.users user.id
                (fun u => { u with isActive := true, lastLogin := some now })) }
              let redirect := if user.role == "staff" then "/sales/recordsale"
                else "/auth/dashboard"
              (.ok (redirect,
                create_access_token user.id user.username user.businessId user.role now), db')

/-- `login_user` (routers/auth.py:197-294): the body plus the outer
`except Exception` handler, which rolls back pending (uncommitted) changes
and re-raises every exception as a 400 whose detail is `str(e)`. -/
def login_user (db : DB) (username password : String) (now : Int) :
    LoginOutcome × DB :=
  match login_body db username password now with
  | (.ok (redirect, cookie), db') => (.ok redirect cookie, db')
  | (.error (status, detail), db') =>
      (.err 400 (toString status ++ ": " ++ detail), db')

/-- `logout_user` (routers/auth.py:329-333): deletes the cookie on the
response; the server-side state (including the blacklist) is untouched. -/
def logout_user (_cookie : Option Token) : Option Token := none

/-- Process-wide application state: the store plus the in-memory
`token_blacklist` of backend/auth_utils.py. -/
structure AppState where
  db : DB
  blacklist : List Token
deriving DecidableEq

/-- The operations of the embedded HTTP surface. -/
inductive Op where
  | login (username password : String) (now : Int)
  | logout
  | recordSale (b : Nat) (source : Option String) (req : SaleRequest)
  | addProduct (b : Nat) (name : String) (price buying_price : ℚ) (quantity : Int)
  | updateStock (b : Nat) (pid : Nat) (q? : Option Int) (price? bp? : Option ℚ)
  | getProducts (b : Nat)
  | getSalesItems (b : Nat)
  | onboardingStatus (b : Nat)

/-- Effect of each route on the process state.  Reads leave the state
unchanged; no route ever calls `blacklist_token`. -/
def step (op : Op) (s : AppState) : AppState :=
  match op with
  | .login username password now => { s with db := (login_user s.db username password now).2 }
  | .logout => s
  | .recordSale b source req => { s with db := (record_sale s.db b source req).stateOf }
  | .addProduct b name price bp q =>
      match add_product s.db b name price bp q with
      | .ok (db', _) => { s with db := db' }
      | .error _ => s
  | .updateStock b pid q? price? bp? =>
      { s with db := (update_stock s.db b pid q? price? bp?).2 }
  | .getProducts _ => s
  | .getSalesItems _ => s
  | .onboardingStatus _ => s

/-- Run a sequence of requests from an initial state. -/
def run (ops : List Op) (s : AppState) : AppState :=
  ops.foldl (fun st op => step op st) s

/-- The store with all tables empty. -/
def emptyDB : DB :=
  { users := [], subscriptions := [], products := [], orders := [],
    sales := [], events := [] }

/-- Referential well-formedness of a store: product ids are unique and every
sales row points at an existing order (the foreign keys of models.py). -/
def DB.WF (db : DB) : Prop :=
  (db.products.map Product.id).Nodup ∧
  ∀ s ∈ db.sales, ∃ o ∈ db.orders, o.id = s.orderId

/-! Helper lemmas. -/

theorem find?_map_preserving {α : Type} (l : List α) (g : α → α) (p : α → Bool)
    (hg : ∀ a, p (g a) = p a) {x : α} (h : l.find? p = some x) :
    (l.map g).find? p = some (g x) := by
  rw [List.find?_map]
  rw [show p ∘ g = p from funext hg, h]
  rfl

theorem rsAfterPurge_products (db : DB) (b : Nat) (source : Option String) :
    (rsAfterPurge db b source).products = db.products := by
  unfold rsAfterPurge purgeDemo; split <;> rfl

theorem rsAfterPurge_orders (db : DB) (b : Nat) (source : Option String) :
    (rsAfterPurge db b source).orders = db.orders := by
  unfold rsAfterPurge purgeDemo; split <;> rfl

theorem rsAfterPurge_sales_sub (db : DB) (b : Nat) (source : Option String) :
    ∀ r ∈ (rsAfterPurge db b source).sales, r ∈ db.sales := by
  unfold rsAfterPurge purgeDemo
  intro r hr
  split at hr
  · exact hr
  · exact (List.mem_filter.mp hr).1

theorem rsAfterHeader_products (db : DB) (b : Nat) (source : Option String)
    (req : SaleRequest) : (rsAfterHeader db b source req).products = db.products := by
  unfold rsAfterHeader
  exact rsAfterPurge_products db b source

theorem rsAfterHeader_sales (db : DB) (b : Nat) (source : Option String)
    (req : SaleRequest) :
    (rsAfterHeader db b source req).sales = (rsAfterPurge db b source).sales := rfl

theorem rsAfterHeader_orders (db : DB) (b : Nat) (source : Option String)
    (req : SaleRequest) :
    (rsAfterHeader db b source req).orders =
      db.orders ++ [rsNewOrder (rsAfterPurge db b source) b req] := by
  show (rsAfterPurge db b source).orders ++ _ = _
  rw [rsAfterPurge_orders]

theorem updProduct_ids (l : List Product) (pid : Nat) (f : Product → Product)
    (hf : ∀ x, (f x).id = x.id) :
    (updProduct l pid f).map Product.id = l.map Product.id := by
  unfold updProduct
  rw [List.map_map]
  apply List.map_congr_left
  intro a _
  by_cases h : (a.id == pid) = true <;> simp [Function.comp, h, hf]

theorem processItem_ok_elim {d : Bool} {b oid : Nat} {acc acc' : LoopAcc}
    {item : SaleItem} (h : processItem d b oid acc item = .ok acc') :
    ∃ p, findProduct acc.products b item.productName = some p ∧
      priceViolation p item.sellingPrice = false ∧
      (d = false → item.quantity ≤ p.quantity) ∧
      acc' = { products :=
                 if d then acc.products
                 else updProduct acc.products p.id
                   (fun x => { x with quantity := x.quantity - item.quantity }),
               rows := acc.rows ++
                 [{ id := acc.nextSalesId, orderId := oid, productId := p.id,
                    quantity := item.quantity,
                    totalPrice := item.sellingPrice * (item.quantity : ℚ),
                    isDemo := d }],
               totalAmount := acc.totalAmount + item.sellingPrice * (item.quantity : ℚ),
               totalProfit := acc.totalProfit +
                 (item.sellingPrice - p.buyingPrice.getD 0) * (item.quantity : ℚ),
               nextSalesId := acc.nextSalesId + 1 } := by
  unfold processItem at h
  cases hf : findProduct acc.products b item.productName with
  | none => rw [hf] at h; exact absurd h (by simp)
  | some p =>
    rw [hf] at h
    dsimp only at h
    by_cases h1 : (!d && decide (p.quantity < item.quantity)) = true
    · rw [if_pos h1] at h; exact absurd h (by simp)
    · rw [if_neg h1] at h
      by_cases h2 : priceViolation p item.sellingPrice = true
      · rw [if_pos h2] at h; exact absurd h (by simp)
      · rw [if_neg h2] at h
        refine ⟨p, rfl, by simpa using h2, ?_, ?_⟩
        · intro hd
          subst hd
          simp only [Bool.not_false, Bool.true_and, decide_eq_true_eq] at h1
          omega
        · cases h
          rfl

theorem processItem_products_ids {d : Bool} {b oid : Nat} {acc acc' : LoopAcc}
    {item : SaleItem} (h : processItem d b oid acc item = .ok acc') :
    acc'.products.map Product.id = acc.products.map Product.id := by
  obtain ⟨p, -, -, -, rfl⟩ := processItem_ok_elim h
  by_cases hd : d = true
  · simp [hd]
  · simp only [hd, if_false]
    exact updProduct_ids _ _ _ (fun _ => rfl)

theorem processItems_rows {d : Bool} {b oid : Nat} :
    ∀ {items : List SaleItem} {acc acc' : LoopAcc},
    processItems d b oid items acc = .ok acc' →
    ∀ r ∈ acc'.rows, r ∈ acc.rows ∨ r.isDemo = d
  | [], acc, acc', h => by
      unfold processItems at h
      cases h
      exact fun r hr => .inl hr
  | item :: rest, acc, acc', h => by
      unfold processItems at h
      cases hi : processItem d b oid acc item with
      | error e => rw [hi] at h; exact absurd h (by simp)
      | ok acc1 =>
        rw [hi] at h
        intro r hr
        rcases processItems_rows h r hr with hmem | hdemo
        · obtain ⟨p, -, -, -, rfl⟩ := processItem_ok_elim hi
          rcases List.mem_append.mp hmem with h1 | h2
          · exact .inl h1
          · right
            rw [List.mem_singleton.mp h2]
        · exact .inr hdemo

theorem processItems_products_demo {b oid : Nat} :
    ∀ {items : List SaleItem} {acc acc' : LoopAcc},
    processItems true b oid items acc = .ok acc' →
    acc'.products = acc.products
  | [], acc, acc', h => by
      unfold processItems at h
      cases h
      rfl
  | item :: rest, acc, acc', h => by
      unfold processItems at h
      cases hi : processItem true b oid acc item with
      | error e => rw [hi] at h; exact absurd h (by simp)
      | ok acc1 =>
        rw [hi] at h
        obtain ⟨p, -, -, -, rfl⟩ := processItem_ok_elim hi
        simpa using processItems_products_demo h

theorem processItem_demo_ok {b : Nat} (oid : Nat) {acc : LoopAcc} {item : SaleItem}
    {p : Product} (hf : findProduct acc.products b item.productName = some p)
    (hp : priceViolation p item.sellingPrice = false) :
    ∃ acc', processItem true b oid acc item = .ok acc' ∧
      acc'.products = acc.products := by
  unfold processItem
  rw [hf]
  simp [hp]

theorem processItems_ok_of_demo {b : Nat} (oid : Nat) :
    ∀ {items : List SaleItem} {acc : LoopAcc},
    (∀ it ∈ items, ∃ p, findProduct acc.products b it.productName = some p ∧
       priceViolation p it.sellingPrice = false) →
    ∃ acc', processItems true b oid items acc = .ok acc'
  | [], acc, _ => ⟨acc, rfl⟩
  | item :: rest, acc, hall => by
      obtain ⟨p, hf, hp⟩ := hall item (List.mem_cons_self _ _)
      obtain ⟨acc1, hi, hprod⟩ := processItem_demo_ok oid hf hp
      have hrest : ∀ it ∈ rest, ∃ p, findProduct acc1.products b it.productName = some p ∧
          priceViolation p it.sellingPrice = false := by
        rw [hprod]
        exact fun it hit => hall it (List.mem_cons_of_mem _ hit)
      obtain ⟨acc', h⟩ := processItems_ok_of_demo oid hrest
      exact ⟨acc', by unfold processItems; rw [hi]; exact h⟩

theorem record_onboarding_event_products (db : DB) (b : Nat) (ev : String) :
    (record_onboarding_event db b ev).products = db.products := by
  unfold record_onboarding_event; split <;> rfl

theorem record_onboarding_event_orders (db : DB) (b : Nat) (ev : String) :
    (record_onboarding_event db b ev).orders = db.orders := by
  unfold record_onboarding_event; split <;> rfl

theorem record_onboarding_event_sales (db : DB) (b : Nat) (ev : String) :
    (record_onboarding_event db b ev).sales = db.sales := by
  unfold record_onboarding_event; split <;> rfl

theorem mem_le_maxOrderId (db : DB) : ∀ o ∈ db.orders, o.id ≤ maxOrderId db := by
  suffices h : ∀ (l : List Order), ∀ o ∈ l, o.id ≤ l.foldr (fun o m => max o.id m) 0 from
    h db.orders
  intro l
  induction l with
  | nil => simp
  | cons a t ih =>
      intro o ho
      rcases List.mem_cons.mp ho with rfl | ho'
      · exact Nat.le_max_left _ _
      · exact le_trans (ih o ho') (Nat.le_max_right _ _)

theorem processItems_preserves_unrelated {d : Bool} {b oid : Nat} :
    ∀ {items : List SaleItem} {acc acc' : LoopAcc},
    processItems d b oid items acc = .ok acc' →
    (acc.products.map Product.id).Nodup →
    ∀ p ∈ acc.products, (∀ it ∈ items, it.productName ≠ p.name) → p ∈ acc'.products
  | [], acc, acc', h => by
      unfold processItems at h
      cases h
      exact fun _ p hp _ => hp
  | item :: rest, acc, acc', h => by
      unfold processItems at h
      cases hi : processItem d b oid acc item with
      | error e => rw [hi] at h; exact absurd h (by simp)
      | ok acc1 =>
        rw [hi] at h
        intro hnd p hp hnames
        obtain ⟨q, hq, -, -, hacc1⟩ := processItem_ok_elim hi
        have hqmem : q ∈ acc.products := List.mem_of_find?_eq_some hq
        have hqname : q.name = item.productName := by
          have := List.find?_some hq
          simp only [Bool.and_eq_true, beq_iff_eq] at this
          exact this.1
        have hp1 : p ∈ acc1.products := by
          subst hacc1
          by_cases hd : d = true
          · simpa [hd] using hp
          · simp only [hd, if_false]
            unfold updProduct
            refine List.mem_map.mpr ⟨p, hp, ?_⟩
            have hne : (p.id == q.id) ≠ true := by
              intro hid
              have hpq : p = q :=
                List.inj_on_of_nodup_map hnd hp hqmem (by simpa using hid)
              exact hnames item (List.mem_cons_self _ _) (by rw [hpq, hqname])
            simp [hne]
        have hnd1 : (acc1.products.map Product.id).Nodup := by
          rw [processItem_products_ids hi]
          exact hnd
        exact processItems_preserves_unrelated h hnd1 p hp1
          (fun it hit => hnames it (List.mem_cons_of_mem _ hit))

theorem record_sale_ok_elim {db : DB} {b : Nat} {source : Option String}
    {req : SaleRequest} {db' : DB} {resp : SaleResponse}
    (h : record_sale db b source req = .ok db' resp) :
    ∃ acc, processItems (demoFlag db source b) b
        (rsNewOrder (rsAfterPurge db b source) b req).id req.items
        (rsInitAcc (rsAfterHeader db b source req)) = .ok acc ∧
      db' = record_onboarding_event
        { rsAfterHeader db b source req with
          products := acc.products,
          orders := (rsAfterPurge db b source).orders ++
            [{ rsNewOrder (rsAfterPurge db b source) b req with
               totalAmount := acc.totalAmount }],
          sales := (rsAfterHeader db b source req).sales ++ acc.rows } b "sell_product" ∧
      resp.isDemo = demoFlag db source b ∧
      resp.totalAmount = acc.totalAmount := by
  unfold record_sale at h
  dsimp only at h
  cases hp : processItems (demoFlag db source b) b
      (rsNewOrder (rsAfterPurge db b source) b req).id req.items
      (rsInitAcc (rsAfterHeader db b source req)) with
  | error e =>
      rw [hp] at h
      exact absurd h (by simp)
  | ok acc =>
      rw [hp] at h
      dsimp only at h
      cases h
      exact ⟨acc, rfl, rfl, rfl, rfl⟩

theorem record_sale_error_elim {db : DB} {b : Nat} {source : Option String}
    {req : SaleRequest} {e : HErr} {db' : DB}
    (h : record_sale db b source req = .error e db') :
    db' = rsAfterHeader db b source req := by
  unfold record_sale at h
  dsimp only at h
  cases hp : processItems (demoFlag db source b) b
      (rsNewOrder (rsAfterPurge db b source) b req).id req.items
      (rsInitAcc (rsAfterHeader db b source req)) with
  | error e' =>
      rw [hp] at h
      dsimp only at h
      cases h
      rfl
  | ok acc =>
      rw [hp] at h
      exact absurd h (by simp)

/-! Claim C5. -/

/-- C5: the claimed price floor at catalog-write time is NOT enforced by
`add_product`.  At the failing input `add_product(name="Widget", price=5,
buying_price=10, quantity=1)` the insert succeeds — the `validate_price`
hook fires while `buying_price` is still unset, so the comparison it was
written to make (second conjunct: the same hook applied to the final field
values rejects the row) never happens. -/
theorem add_product_price_floor_not_enforced :
    add_product emptyDB 1 "Widget" 5 10 1 =
      .ok ({ emptyDB with products :=
          [{ id := 1, name := "Widget", businessId := 1, price := 5,
             buyingPrice := some 10, quantity := 1 }] }, 1) ∧
    validate_price (some 10) 5 =
      .error "Selling price cannot be below buying price" := by
  constructor
  · rfl
  · norm_num [validate_price]

/-! Claim C8. -/

/-- Store of a business whose only recorded activity is one demo sale. -/
def demoOnlyDB : DB :=
  { users := [], subscriptions := [], products := [],
    orders := [{ id := 1, orderCode := "ORD-00001", businessId := 1,
                 clientName := none, salesPerson := none, totalAmount := 10 }],
    sales := [{ id := 1, orderId := 1, productId := 1, quantity := 1,
                totalPrice := 10, isDemo := true }],
    events := [] }

/-- C8 (counterexample): for a business whose only recorded activity is a
demo sale — no `sell_product` onboarding event, no non-demo sales row —
`onboarding_status` reports `steps.sell_product = true`, contradicting the
claim that it would be false. -/
theorem sell_product_demo_only_counterexample :
    hasRealSale demoOnlyDB 1 = false ∧
    eventLogged demoOnlyDB 1 "sell_product" = false ∧
    (onboarding_status demoOnlyDB 1).1.sell_product = true := by
  decide

/-- C8 (amended): `steps.sell_product` is true exactly when the business has
at least one `Order` row — demo orders included; the `sell_product`
onboarding event is not consulted for this step. -/
theorem sell_product_iff_any_order (db : DB) (b : Nat) :
    (onboarding_status db b).1.sell_product = true ↔
      ∃ o ∈ db.orders, o.businessId = b := by
  simp [onboarding_status, hasAnyOrder, List.any_eq_true]

/-! Claim C7. -/

/-- C7: tenant isolation of the embedded queries — `get_products` returns
only rows of the caller's business, every row of the flattened sales-report
join belongs to the caller's business, and `update_stock` on a product id
that belongs to no product of the caller's business fails with the 404 and
leaves the store unchanged. -/
theorem tenant_isolation :
    (∀ (db : DB) (b : Nat), ∀ p ∈ get_products db b, p.businessId = b) ∧
    (∀ (db : DB) (b : Nat), ∀ t ∈ salesItemsJoined db b, t.2.1.businessId = b) ∧
    (∀ (db : DB) (b pid : Nat) (q? : Option Int) (price? bp? : Option ℚ),
      (∀ p ∈ db.products, p.id = pid → p.businessId ≠ b) →
      update_stock db b pid q? price? bp? =
        (.error (.notFound "Product not found"), db)) := by
  refine ⟨?_, ?_, ?_⟩
  · intro db b p hp
    simpa using (List.mem_filter.mp hp).2
  · intro db b t ht
    simpa using (List.mem_filter.mp ht).2
  · intro db b pid q? price? bp? hnone
    unfold update_stock
    have hfind : db.products.find? (fun p => p.id == pid && p.businessId == b) = none := by
      rw [List.find?_eq_none]
      intro p hp
      simp only [Bool.and_eq_true, beq_iff_eq, not_and]
      exact fun h1 h2 => hnone p hp h1 h2
    rw [hfind]

/-- Store with one product, owned by business 1. -/
def oneProductDB : DB :=
  { users := [], subscriptions := [],
    products := [{ id := 1, name := "A", businessId := 1, price := 10,
                   buyingPrice := none, quantity := 5 }],
    orders := [], sales := [], events := [] }

/-- C7 witness: business 1's product is listed with its own business id, and
a caller of business 2 patching product id 1 gets the 404 with the store
unchanged. -/
theorem tenant_isolation_witness :
    ({ id := 1, name := "A", businessId := 1, price := 10, buyingPrice := none,
       quantity := 5 } : Product).businessId = 1 ∧
    update_stock oneProductDB 2 1 none none none =
      (.error (.notFound "Product not found"), oneProductDB) :=
  ⟨tenant_isolation.1 oneProductDB 1 _ (by decide),
   tenant_isolation.2.2 oneProductDB 2 1 none none none (by decide)⟩

/-! Claim C6. -/

/-- C6: a non-superadmin login against a subscription in status trial or
active whose end_date has passed is blocked with the "expired" detail, and
the stored subscription row has already been mutated to status="expired",
is_active=false when the error is returned (the mutation is committed at
auth.py:248/254 before the raise; the outer handler re-labels the 403 as a
400 whose detail keeps the original status code and text). -/
theorem login_expired_write_through
    (db : DB) (username password : String) (now : Int)
    (user : UserRow) (sub : SubscriptionRow)
    (hu : db.users.find? (fun u => u.username == username) = some user)
    (hpw : pwd_verify password user.passwordHash = true)
    (hrole : user.role ≠ "superadmin")
    (hsub : db.subscriptions.find? (fun s => s.businessId == user.businessId) = some sub)
    (hstat : sub.status = "trial" ∨ sub.status = "active")
    (hend : sub.endDate < now) :
    ∃ detail,
      login_user db username password now =
        (.err 400 detail,
         { db with subscriptions := (updSubscription db.subscriptions sub.id
             (fun s => { s with status := "expired", isActive := false })) }) ∧
      (detail = "403: Your trial has expired." ∨
       detail = "403: Your subscription has expired.") ∧
      (login_user db username password now).2.subscriptions.find?
          (fun s => s.businessId == user.businessId) =
        some { sub with status := "expired", isActive := false } := by
  have hrole' : (user.role == "superadmin") = false := by simpa using hrole
  have hsusp : (sub.status == "suspended") = false := by
    rcases hstat with h | h <;> simp [h]
  have hdec : decide (sub.endDate < now) = true := by simpa using hend
  have hfind2 : (updSubscription db.subscriptions sub.id
      (fun s => { s with status := "expired", isActive := false })).find?
      (fun s => s.businessId == user.businessId) =
      some { sub with status := "expired", isActive := false } := by
    unfold updSubscription
    have := find?_map_preserving db.subscriptions
      (fun s => if s.id == sub.id
        then { s with status := "expired", isActive := false } else s)
      (fun s => s.businessId == user.businessId)
      (by intro a; by_cases ha : (a.id == sub.id) = true <;> simp [ha]) hsub
    simpa using this
  rcases hstat with h | h
  · have h1 : (sub.status == "trial") = true := by simp [h]
    have heq : login_user db username password now =
        (.err 400 "403: Your trial has expired.",
         { db with subscriptions := (updSubscription db.subscriptions sub.id
             (fun s => { s with status := "expired", isActive := false })) }) := by
      simp only [login_user, login_body, hu, hpw, hrole', hsub, hsusp, h1, hdec,
        Bool.not_true, Bool.false_eq_true, if_false, if_true, Bool.and_self,
        Bool.true_and]
      rfl
    exact ⟨_, heq, .inl rfl, by rw [heq]; exact hfind2⟩
  · have h1 : (sub.status == "trial") = false := by simp [h]
    have h2 : (sub.status == "active") = true := by simp [h]
    have heq : login_user db username password now =
        (.err 400 "403: Your subscription has expired.",
         { db with subscriptions := (updSubscription db.subscriptions sub.id
             (fun s => { s with status := "expired", isActive := false })) }) := by
      simp only [login_user, login_body, hu, hpw, hrole', hsub, hsusp, h1, h2, hdec,
        Bool.not_true, Bool.false_eq_true, Bool.false_and, if_false, if_true,
        Bool.and_self, Bool.true_and]
      rfl
    exact ⟨_, heq, .inr rfl, by rw [heq]; exact hfind2⟩

/-- Store for the login-gate witnesses: one admin user of business 1 whose
trial subscription ended at time 100. -/
def expiredTrialDB : DB :=
  { users := [{ id := 1, businessId := some 1, username := "u",
                passwordHash := pwd_hash "pw", role := "admin",
                isActive := true, lastLogin := none }],
    subscriptions := [{ id := 1, businessId := some 1, status := "trial",
                        startDate := 0, endDate := 100, isActive := true }],
    products := [], orders := [], sales := [], events := [] }

/-- C6 witness: logging in at time 200 against the trial that ended at 100
is blocked with the expired detail and the stored row is now expired. -/
theorem login_expired_write_through_witness :
    ∃ detail,
      login_user expiredTrialDB "u" "pw" 200 =
        (.err 400 detail,
         { expiredTrialDB with
           subscriptions := (updSubscription expiredTrialDB.subscriptions 1
             (fun s => { s with status := "expired", isActive := false })) }) ∧
      (detail = "403: Your trial has expired." ∨
       detail = "403: Your subscription has expired.") ∧
      (login_user expiredTrialDB "u" "pw" 200).2.subscriptions.find?
          (fun s => s.businessId == some 1) =
        some { id := 1, businessId := some 1, status := "expired",
               startDate := 0, endDate := 100, isActive := false } :=
  login_expired_write_through expiredTrialDB "u" "pw" 200
    { id := 1, businessId := some 1, username := "u",
      passwordHash := pwd_hash "pw", role := "admin",
      isActive := true, lastLogin := none }
    { id := 1, businessId := some 1, status := "trial",
      startDate := 0, endDate := 100, isActive := true }
    (by decide) (by decide) (by decide) (by decide) (.inl rfl) (by decide)

/-! Claim C9. -/

/-- C9: once a subscription's status is already "expired", the gate no
longer blocks: a non-superadmin user with correct credentials logs in
successfully, whatever the end_date, and a session token is issued. -/
theorem login_expired_status_passes
    (db : DB) (username password : String) (now : Int)
    (user : UserRow) (sub : SubscriptionRow)
    (hu : db.users.find? (fun u => u.username == username) = some user)
    (hpw : pwd_verify password user.passwordHash = true)
    (hrole : user.role ≠ "superadmin")
    (hsub : db.subscriptions.find? (fun s => s.businessId == user.businessId) = some sub)
    (hstat : sub.status = "expired") :
    ∃ redirect,
      login_user db username password now =
        (.ok redirect (create_access_token user.id user.username
           user.businessId user.role now),
         { db with users := (updUser db.users user.id
             (fun u => { u with isActive := true, lastLogin := some now })) }) := by
  have hrole' : (user.role == "superadmin") = false := by simpa using hrole
  have hsusp : (sub.status == "suspended") = false := by simp [hstat]
  have h1 : (sub.status == "trial") = false := by simp [hstat]
  have h2 : (sub.status == "active") = false := by simp [hstat]
  refine ⟨if user.role == "staff" then "/sales/recordsale" else "/auth/dashboard", ?_⟩
  simp only [login_user, login_body, hu, hpw, hrole', hsub, hsusp, h1, h2,
    Bool.not_true, Bool.false_eq_true, Bool.false_and, if_false, if_true]

/-- Store whose subscription already carries status "expired". -/
def expiredStatusDB : DB :=
  { expiredTrialDB with
    subscriptions := [{ id := 1, businessId := some 1, status := "expired",
                        startDate := 0, endDate := 100, isActive := false }] }

/-- C9 witness: at time 200 (long past end_date 100) the login against the
already-expired subscription succeeds and a token is issued. -/
theorem login_expired_status_passes_witness :
    ∃ redirect,
      login_user expiredStatusDB "u" "pw" 200 =
        (.ok redirect (create_access_token 1 "u" (some 1) "admin" 200),
         { expiredStatusDB with users := (updUser expiredStatusDB.users 1
             (fun u => { u with isActive := true, lastLogin := some 200 })) }) :=
  login_expired_status_passes expiredStatusDB "u" "pw" 200
    { id := 1, businessId := some 1, username := "u",
      passwordHash := pwd_hash "pw", role := "admin",
      isActive := true, lastLogin := none }
    { id := 1, businessId := some 1, status := "expired",
      startDate := 0, endDate := 100, isActive := false }
    (by decide) (by decide) (by decide) (by decide) (by decide)

/-! Claim C10. -/

theorem step_blacklist (op : Op) (s : AppState) :
    (step op s).blacklist = s.blacklist := by
  cases op <;> first
    | rfl
    | (dsimp only [step]; split <;> rfl)

theorem run_blacklist (ops : List Op) (s : AppState) :
    (run ops s).blacklist = s.blacklist := by
  induction ops generalizing s with
  | nil => rfl
  | cons op rest ih =>
      show (run rest (step op s)).blacklist = s.blacklist
      rw [ih, step_blacklist]

/-- C10: no route of the embedded surface ever adds to the token blacklist
— starting from an empty blacklist, it stays empty across any request
sequence (logouts included, which only clear the client cookie), so any
correctly signed, unexpired token still authenticates afterwards. -/
theorem blacklist_never_populated (ops : List Op) (s : AppState)
    (t : Token) (now : Int)
    (hinit : s.blacklist = [])
    (hsig : t.sig = secretKey)
    (hexp : now < t.exp) :
    (run ops s).blacklist = [] ∧
    logout_user (some t) = none ∧
    verify_token (run ops s).blacklist (some t) now = some t := by
  have hbl : (run ops s).blacklist = [] := (run_blacklist ops s).trans hinit
  refine ⟨hbl, rfl, ?_⟩
  unfold verify_token
  rw [hbl]
  simp [hsig, hexp]

/-- A session token signed with the server secret, expiring at time 100. -/
def sampleToken : Token :=
  { userId := 1, username := "u", businessId := some 1, role := "admin",
    exp := 100, sig := secretKey }

/-- C10 witness: after a logout (and a read), the token signed for user 1
and expiring at time 100 still verifies at time 0 against the (still empty)
blacklist. -/
theorem blacklist_never_populated_witness :
    (run [Op.logout, Op.getProducts 1] { db := emptyDB, blacklist := [] }).blacklist = [] ∧
    logout_user (some sampleToken) = none ∧
    verify_token (run [Op.logout, Op.getProducts 1]
        { db := emptyDB, blacklist := [] }).blacklist
      (some sampleToken) 0 = some sampleToken :=
  blacklist_never_populated [Op.logout, Op.getProducts 1]
    { db := emptyDB, blacklist := [] } sampleToken 0
    rfl rfl (by decide)

theorem rsAfterPurge_real {db : DB} {b : Nat} {source : Option String}
    (hdemo : demoFlag db source b = false) :
    rsAfterPurge db b source = purgeDemo db b := by
  unfold rsAfterPurge
  rw [hdemo]
  simp

theorem rsAfterPurge_demo {db : DB} {b : Nat} {source : Option String}
    (hdemo : demoFlag db source b = true) :
    rsAfterPurge db b source = db := by
  unfold rsAfterPurge
  rw [hdemo]
  simp

theorem record_sale_ok_intro {db : DB} {b : Nat} {source : Option String}
    {req : SaleRequest} {acc : LoopAcc}
    (hloop : processItems (demoFlag db source b) b
      (rsNewOrder (rsAfterPurge db b source) b req).id req.items
      (rsInitAcc (rsAfterHeader db b source req)) = .ok acc) :
    record_sale db b source req = .ok
      (record_onboarding_event
        { rsAfterHeader db b source req with
          products := acc.products,
          orders := (rsAfterPurge db b source).orders ++
            [{ rsNewOrder (rsAfterPurge db b source) b req with
               totalAmount := acc.totalAmount }],
          sales := (rsAfterHeader db b source req).sales ++ acc.rows } b "sell_product")
      { message :=
          if demoFlag db source b then
            "Demo sale recorded successfully. Your stock was NOT reduced. " ++
            "When you record your next sale, this demo will be removed automatically."
          else "Order recorded successfully!",
        orderCode := (rsNewOrder (rsAfterPurge db b source) b req).orderCode,
        totalAmount := acc.totalAmount, totalProfit := acc.totalProfit,
        isDemo := demoFlag db source b } := by
  unfold record_sale
  dsimp only
  rw [hloop]

theorem processItem_real_ok {b oid : Nat} {acc : LoopAcc} {item : SaleItem}
    {p : Product} (hf : findProduct acc.products b item.productName = some p)
    (hstock : item.quantity ≤ p.quantity)
    (hp : priceViolation p item.sellingPrice = false) :
    processItem false b oid acc item = .ok
      { products := updProduct acc.products p.id
          (fun x => { x with quantity := x.quantity - item.quantity }),
        rows := acc.rows ++
          [{ id := acc.nextSalesId, orderId := oid, productId := p.id,
             quantity := item.quantity,
             totalPrice := item.sellingPrice * (item.quantity : ℚ),
             isDemo := false }],
        totalAmount := acc.totalAmount + item.sellingPrice * (item.quantity : ℚ),
        totalProfit := acc.totalProfit +
          (item.sellingPrice - p.buyingPrice.getD 0) * (item.quantity : ℚ),
        nextSalesId := acc.nextSalesId + 1 } := by
  have hnlt : ¬ (p.quantity < item.quantity) := not_lt.mpr hstock
  unfold processItem
  rw [hf]
  dsimp only
  rw [if_neg (by simpa using hnlt), if_neg (by simp [hp])]
  rfl

theorem processItems_real_single {b oid : Nat} {acc : LoopAcc} {item : SaleItem}
    {p : Product} (hf : findProduct acc.products b item.productName = some p)
    (hstock : item.quantity ≤ p.quantity)
    (hp : priceViolation p item.sellingPrice = false) :
    processItems false b oid [item] acc = .ok
      { products := updProduct acc.products p.id
          (fun x => { x with quantity := x.quantity - item.quantity }),
        rows := acc.rows ++
          [{ id := acc.nextSalesId, orderId := oid, productId := p.id,
             quantity := item.quantity,
             totalPrice := item.sellingPrice * (item.quantity : ℚ),
             isDemo := false }],
        totalAmount := acc.totalAmount + item.sellingPrice * (item.quantity : ℚ),
        totalProfit := acc.totalProfit +
          (item.sellingPrice - p.buyingPrice.getD 0) * (item.quantity : ℚ),
        nextSalesId := acc.nextSalesId + 1 } := by
  unfold processItems
  rw [processItem_real_ok hf hstock hp]
  rfl

theorem findProduct_updProduct (ps : List Product) (b : Nat) (name : String)
    {p : Product} (k : Int) (hf : findProduct ps b name = some p) :
    findProduct (updProduct ps p.id
        (fun x => { x with quantity := x.quantity - k })) b name =
      some { p with quantity := p.quantity - k } := by
  unfold findProduct updProduct
  unfold findProduct at hf
  have := find?_map_preserving ps
    (fun x => if x.id == p.id then { x with quantity := x.quantity - k } else x)
    (fun q => q.name == name && q.businessId == b)
    (by intro a; by_cases ha : (a.id == p.id) = true <;> simp [ha]) hf
  simpa using this

/-! Claim C1. -/

/-- Request naming a product that does not exist for business 1. -/
def missingItemReq : SaleRequest :=
  { clientName := none, salesPerson := none,
    items := [{ productName := "B", quantity := 1, sellingPrice := 10 }] }

/-- C1 (counterexample): a sale whose single line item fails (product "B"
not found) nevertheless leaves a committed `Order` row behind — the order
header commit at sales.py:125 precedes the loop, so "nothing persists" is
false. -/
theorem record_sale_not_atomic_counterexample :
    (record_sale oneProductDB 1 none missingItemReq).isError = true ∧
    oneProductDB.orders.length = 0 ∧
    (record_sale oneProductDB 1 none missingItemReq).stateOf.orders.length = 1 := by
  decide

/-- C1 (amended): a mid-loop failure aborts the line items — no `Sales` row
and no stock change persists — but the two commits that precede the loop
survive: the demo purge and the order header, which remains committed with
`total_amount = 0`. -/
theorem record_sale_error_committed_state
    (db : DB) (b : Nat) (source : Option String) (req : SaleRequest)
    (e : HErr) (db' : DB)
    (h : record_sale db b source req = .error e db') :
    db'.products = db.products ∧
    (∀ r ∈ db'.sales, r ∈ db.sales) ∧
    db'.orders = db.orders ++ [rsNewOrder (rsAfterPurge db b source) b req] ∧
    (rsNewOrder (rsAfterPurge db b source) b req).totalAmount = 0 := by
  obtain rfl := record_sale_error_elim h
  refine ⟨rsAfterHeader_products db b source req, ?_, rsAfterHeader_orders db b source req, rfl⟩
  intro r hr
  exact rsAfterPurge_sales_sub db b source r hr

/-- C1 witness: at the concrete failing call, the committed state keeps the
products, gains no sales row, and carries exactly the new order header. -/
theorem record_sale_error_committed_state_witness :
    (rsAfterHeader oneProductDB 1 none missingItemReq).products = oneProductDB.products ∧
    (∀ r ∈ (rsAfterHeader oneProductDB 1 none missingItemReq).sales,
       r ∈ oneProductDB.sales) ∧
    (rsAfterHeader oneProductDB 1 none missingItemReq).orders =
      oneProductDB.orders ++ [rsNewOrder (rsAfterPurge oneProductDB 1 none) 1 missingItemReq] ∧
    (rsNewOrder (rsAfterPurge oneProductDB 1 none) 1 missingItemReq).totalAmount = 0 :=
  record_sale_error_committed_state oneProductDB 1 none missingItemReq
    (.notFound "Product 'B' not found")
    (rsAfterHeader oneProductDB 1 none missingItemReq)
    (by decide)

/-! Claim C2. -/

/-- C2: stock conservation for real (non-demo) sale lines.  First part:
every line of every real order — processed at any point of the loop, with
prior (session) stock Q ≥ q and the price floor respected — decrements that
product's stock by exactly q and appends the sales row with
total_price = q × s, s the submitted selling price (the product's stored
price field plays no role).  Second part: end to end through
`record_sale` for a one-line request. -/
theorem record_sale_stock_conservation :
    (∀ (b oid : Nat) (acc : LoopAcc) (item : SaleItem) (p : Product),
      findProduct acc.products b item.productName = some p →
      item.quantity ≤ p.quantity →
      priceViolation p item.sellingPrice = false →
      processItem false b oid acc item = .ok
        { products := updProduct acc.products p.id
            (fun x => { x with quantity := x.quantity - item.quantity }),
          rows := acc.rows ++
            [{ id := acc.nextSalesId, orderId := oid, productId := p.id,
               quantity := item.quantity,
               totalPrice := item.sellingPrice * (item.quantity : ℚ),
               isDemo := false }],
          totalAmount := acc.totalAmount + item.sellingPrice * (item.quantity : ℚ),
          totalProfit := acc.totalProfit +
            (item.sellingPrice - p.buyingPrice.getD 0) * (item.quantity : ℚ),
          nextSalesId := acc.nextSalesId + 1 }) ∧
    (∀ (db : DB) (b : Nat) (source : Option String) (req : SaleRequest)
      (item : SaleItem) (p : Product),
      req.items = [item] →
      demoFlag db source b = false →
      findProduct db.products b item.productName = some p →
      item.quantity ≤ p.quantity →
      priceViolation p item.sellingPrice = false →
      ∃ db' resp rid oid,
        record_sale db b source req = .ok db' resp ∧
        findProduct db'.products b item.productName =
          some { p with quantity := p.quantity - item.quantity } ∧
        db'.sales = (purgeDemo db b).sales ++
          [{ id := rid, orderId := oid, productId := p.id,
             quantity := item.quantity,
             totalPrice := item.sellingPrice * (item.quantity : ℚ),
             isDemo := false }] ∧
        resp.totalAmount = item.sellingPrice * (item.quantity : ℚ)) := by
  refine ⟨fun b oid acc item p hf hs hp => processItem_real_ok hf hs hp, ?_⟩
  intro db b source req item p hitems hdemo hfind hstock hprice
  have hfind2 : findProduct (rsInitAcc (rsAfterHeader db b source req)).products b
      item.productName = some p := by
    show findProduct (rsAfterHeader db b source req).products b item.productName = some p
    rw [rsAfterHeader_products]
    exact hfind
  have hloop : processItems (demoFlag db source b) b
      (rsNewOrder (rsAfterPurge db b source) b req).id req.items
      (rsInitAcc (rsAfterHeader db b source req)) = .ok
      { products := updProduct (rsInitAcc (rsAfterHeader db b source req)).products p.id
          (fun x => { x with quantity := x.quantity - item.quantity }),
        rows := (rsInitAcc (rsAfterHeader db b source req)).rows ++
          [{ id := (rsInitAcc (rsAfterHeader db b source req)).nextSalesId,
             orderId := (rsNewOrder (rsAfterPurge db b source) b req).id,
             productId := p.id, quantity := item.quantity,
             totalPrice := item.sellingPrice * (item.quantity : ℚ),
             isDemo := false }],
        totalAmount := (rsInitAcc (rsAfterHeader db b source req)).totalAmount +
          item.sellingPrice * (item.quantity : ℚ),
        totalProfit := (rsInitAcc (rsAfterHeader db b source req)).totalProfit +
          (item.sellingPrice - p.buyingPrice.getD 0) * (item.quantity : ℚ),
        nextSalesId := (rsInitAcc (rsAfterHeader db b source req)).nextSalesId + 1 } := by
    rw [hitems, hdemo]
    exact processItems_real_single hfind2 hstock hprice
  have heq := record_sale_ok_intro hloop
  refine ⟨_, _, (rsInitAcc (rsAfterHeader db b source req)).nextSalesId,
    (rsNewOrder (rsAfterPurge db b source) b req).id, heq, ?_, ?_, ?_⟩
  · rw [record_onboarding_event_products]
    exact findProduct_updProduct _ _ _ _ hfind2
  · rw [record_onboarding_event_sales]
    show (rsAfterHeader db b source req).sales ++ _ = _
    rw [rsAfterHeader_sales, rsAfterPurge_real hdemo]
    rfl
  · show (rsInitAcc (rsAfterHeader db b source req)).totalAmount +
      item.sellingPrice * (item.quantity : ℚ) = item.sellingPrice * (item.quantity : ℚ)
    show (0 : ℚ) + item.sellingPrice * (item.quantity : ℚ) = item.sellingPrice * (item.quantity : ℚ)
    rw [zero_add]

/-- The spec's scenario store: product "Widget", price 10, buying price 4,
quantity 5, owned by business 1. -/
def widgetDB : DB :=
  { users := [], subscriptions := [],
    products := [{ id := 1, name := "Widget", businessId := 1, price := 10,
                   buyingPrice := some 4, quantity := 5 }],
    orders := [], sales := [], events := [] }

/-- Sale of 3 Widgets at selling price 10. -/
def widgetSaleReq : SaleRequest :=
  { clientName := none, salesPerson := none,
    items := [{ productName := "Widget", quantity := 3, sellingPrice := 10 }] }

/-- C2 witness: the spec's scenario — selling 3 Widgets at 10 from stock 5
leaves stock 2 and records the row with total_price 3 × 10; both the
per-line fact (at an arbitrary loop position, order id 7) and the
end-to-end one are instantiated. -/
theorem record_sale_stock_conservation_witness :
    processItem false 1 7
      { products := widgetDB.products, rows := [], totalAmount := 0,
        totalProfit := 0, nextSalesId := 1 }
      { productName := "Widget", quantity := 3, sellingPrice := 10 } = .ok
      { products := updProduct widgetDB.products 1
          (fun x => { x with quantity := x.quantity - 3 }),
        rows := [] ++
          [{ id := 1, orderId := 7, productId := 1, quantity := 3,
             totalPrice := 10 * ((3 : Int) : ℚ), isDemo := false }],
        totalAmount := 0 + 10 * ((3 : Int) : ℚ),
        totalProfit := 0 + (10 - Option.getD (some 4) 0) * ((3 : Int) : ℚ),
        nextSalesId := 1 + 1 } ∧
    ∃ db' resp rid oid,
      record_sale widgetDB 1 none widgetSaleReq = .ok db' resp ∧
      findProduct db'.products 1 "Widget" =
        some { id := 1, name := "Widget", businessId := 1, price := 10,
               buyingPrice := some 4, quantity := 5 - 3 } ∧
      db'.sales = (purgeDemo widgetDB 1).sales ++
        [{ id := rid, orderId := oid, productId := 1, quantity := 3,
           totalPrice := 10 * ((3 : Int) : ℚ), isDemo := false }] ∧
      resp.totalAmount = 10 * ((3 : Int) : ℚ) :=
  ⟨record_sale_stock_conservation.1 1 7
      { products := widgetDB.products, rows := [], totalAmount := 0,
        totalProfit := 0, nextSalesId := 1 }
      { productName := "Widget", quantity := 3, sellingPrice := 10 }
      { id := 1, name := "Widget", businessId := 1, price := 10,
        buyingPrice := some 4, quantity := 5 }
      (by decide) (by decide) (by decide),
   record_sale_stock_conservation.2 widgetDB 1 none widgetSaleReq
    { productName := "Widget", quantity := 3, sellingPrice := 10 }
    { id := 1, name := "Widget", businessId := 1, price := 10,
      buyingPrice := some 4, quantity := 5 }
    rfl (by decide) (by decide) (by decide) (by decide)⟩

/-! Claim C3. -/

/-- C3: an order is recorded as a demo sale exactly under
`source=onboarding ∧ no prior non-demo sales row` (the `demoFlag`).  In the
demo case the sale succeeds with no stock hypothesis at all (the
insufficient-stock check is skipped), the stock is left untouched, and every
persisted line carries `is_demo=true`; in the non-demo case no successful
call ever marks the order or a new line as demo. -/
theorem record_sale_demo_semantics
    (db : DB) (b : Nat) (source : Option String) (req : SaleRequest) :
    (demoFlag db source b = true →
      (∀ it ∈ req.items, ∃ p, findProduct db.products b it.productName = some p ∧
         priceViolation p it.sellingPrice = false) →
      ∃ db' resp, record_sale db b source req = .ok db' resp ∧
        resp.isDemo = true ∧ db'.products = db.products ∧
        ∀ r ∈ db'.sales, r ∈ db.sales ∨ r.isDemo = true) ∧
    (demoFlag db source b = false →
      ∀ db' resp, record_sale db b source req = .ok db' resp →
        resp.isDemo = false ∧ ∀ r ∈ db'.sales, r ∈ db.sales ∨ r.isDemo = false) := by
  constructor
  · intro hdemo hall
    have hall2 : ∀ it ∈ req.items,
        ∃ p, findProduct (rsInitAcc (rsAfterHeader db b source req)).products b
          it.productName = some p ∧ priceViolation p it.sellingPrice = false := by
      intro it hit
      obtain ⟨p, hf, hp⟩ := hall it hit
      refine ⟨p, ?_, hp⟩
      show findProduct (rsAfterHeader db b source req).products b it.productName = some p
      rw [rsAfterHeader_products]
      exact hf
    obtain ⟨acc, hloop0⟩ :=
      processItems_ok_of_demo (rsNewOrder (rsAfterPurge db b source) b req).id hall2
    have hloop : processItems (demoFlag db source b) b
        (rsNewOrder (rsAfterPurge db b source) b req).id req.items
        (rsInitAcc (rsAfterHeader db b source req)) = .ok acc := by
      rw [hdemo]
      exact hloop0
    have heq := record_sale_ok_intro hloop
    refine ⟨_, _, heq, by simp [hdemo], ?_, ?_⟩
    · rw [record_onboarding_event_products]
      show acc.products = db.products
      rw [processItems_products_demo hloop0]
      show (rsAfterHeader db b source req).products = db.products
      exact rsAfterHeader_products db b source req
    · intro r hr
      rw [record_onboarding_event_sales] at hr
      rcases List.mem_append.mp hr with h1 | h2
      · left
        rw [rsAfterHeader_sales, rsAfterPurge_demo hdemo] at h1
        exact h1
      · rcases processItems_rows hloop0 r h2 with h3 | h3
        · exact absurd h3 (by simp [rsInitAcc])
        · exact .inr h3
  · intro hdemo db' resp h
    obtain ⟨acc, hloop, hdb', hisDemo, -⟩ := record_sale_ok_elim h
    refine ⟨by rw [hisDemo, hdemo], ?_⟩
    intro r hr
    rw [hdb', record_onboarding_event_sales] at hr
    rcases List.mem_append.mp hr with h1 | h2
    · exact .inl (rsAfterPurge_sales_sub db b source r h1)
    · rcases processItems_rows hloop r h2 with h3 | h3
      · exact absurd h3 (by simp [rsInitAcc])
      · right
        rw [h3, hdemo]

/-- C3 witness: the spec's scenario 8 — onboarding demo sale of 100 units
of a product stocked at 5 succeeds, is flagged demo, and stock stays 5. -/
theorem record_sale_demo_semantics_witness :
    ∃ db' resp, record_sale oneProductDB 1 (some "onboarding")
        { clientName := none, salesPerson := none,
          items := [{ productName := "A", quantity := 100, sellingPrice := 10 }] } =
        .ok db' resp ∧
      resp.isDemo = true ∧ db'.products = oneProductDB.products ∧
      ∀ r ∈ db'.sales, r ∈ oneProductDB.sales ∨ r.isDemo = true :=
  (record_sale_demo_semantics oneProductDB 1 (some "onboarding")
      { clientName := none, salesPerson := none,
        items := [{ productName := "A", quantity := 100, sellingPrice := 10 }] }).1
    (by decide)
    (fun it hit => by
      rw [List.mem_singleton.mp hit]
      exact ⟨{ id := 1, name := "A", businessId := 1, price := 10,
               buyingPrice := none, quantity := 5 }, by decide, by decide⟩)

/-! Claim C4. -/

/-- The demo-only store of C8 extended with the product the demo sale
referenced. -/
def demoWithProductDB : DB :=
  { demoOnlyDB with
    products := [{ id := 1, name := "A", businessId := 1, price := 10,
                   buyingPrice := none, quantity := 5 }] }

/-- A real sale of 2 units of product "A" at price 10. -/
def realSaleReq : SaleRequest :=
  { clientName := none, salesPerson := none,
    items := [{ productName := "A", quantity := 2, sellingPrice := 10 }] }

/-- The committed store after recording `realSaleReq` on
`demoWithProductDB`: the demo sales row is gone, but its parent order
(id 1) is still there, next to the new order. -/
def afterRealSaleDB : DB :=
  { users := [], subscriptions := [],
    products := [{ id := 1, name := "A", businessId := 1, price := 10,
                   buyingPrice := none, quantity := 3 }],
    orders := [{ id := 1, orderCode := "ORD-00001", businessId := 1,
                 clientName := none, salesPerson := none, totalAmount := 10 },
               { id := 2, orderCode := "ORD-00002", businessId := 1,
                 clientName := none, salesPerson := none, totalAmount := 20 }],
    sales := [{ id := 1, orderId := 2, productId := 1, quantity := 2,
                totalPrice := 20, isDemo := false }],
    events := [{ businessId := 1, event := "sell_product" }] }

/-- C4 (counterexample): before the real sale, business 1 has exactly one
demo sales row, whose parent is order id 1; the real sale succeeds, the demo
sales rows are gone — but the parent demo order (id 1) is NOT deleted: it is
still present in the committed store, contradicting the claim. -/
theorem demo_purge_keeps_parent_orders_counterexample :
    (demoWithProductDB.sales.filter
       (fun s => isDemoSaleRowOf demoWithProductDB.orders 1 s)).length = 1 ∧
    record_sale demoWithProductDB 1 none realSaleReq =
      .ok afterRealSaleDB
        { message := "Order recorded successfully!", orderCode := "ORD-00002",
          totalAmount := 20, totalProfit := 20, isDemo := false } ∧
    (afterRealSaleDB.sales.filter (fun s => s.isDemo)).length = 0 ∧
    afterRealSaleDB.orders.map Order.id = [1, 2] := by
  refine ⟨by decide, ?_, by decide, by decide⟩
  norm_num [record_sale, rsAfterPurge, rsAfterHeader, rsNewOrder, rsNextNumber, rsInitAcc,
    processItems, processItem, findProduct, priceViolation, purgeDemo, demoFlag,
    hasRealSale, isDemoSaleRowOf, maxOrderId, maxSalesId, orderCodeOf, updProduct,
    record_onboarding_event, demoWithProductDB, demoOnlyDB, realSaleReq, afterRealSaleDB]
  decide

/-- C4 (amended): before a real sale is persisted, the business's demo
`Sales` rows are all purged — afterwards no demo sales row of the business
remains — but their parent `Order` rows are NOT deleted: every pre-existing
order survives.  Stock of products not named in the sale is unaffected. -/
theorem record_sale_purges_demo_sales_rows
    (db : DB) (b : Nat) (source : Option String) (req : SaleRequest)
    (db' : DB) (resp : SaleResponse)
    (hwf : db.WF)
    (hdemo : demoFlag db source b = false)
    (h : record_sale db b source req = .ok db' resp) :
    (∀ r ∈ db'.sales, r.isDemo = true →
       ∀ o ∈ db'.orders, o.id = r.orderId → o.businessId ≠ b) ∧
    (∀ o ∈ db.orders, o ∈ db'.orders) ∧
    (∀ p ∈ db.products, (∀ it ∈ req.items, it.productName ≠ p.name) →
       p ∈ db'.products) := by
  obtain ⟨acc, hloop, hdb', -, -⟩ := record_sale_ok_elim h
  have horders : db'.orders = db.orders ++
      [{ rsNewOrder (rsAfterPurge db b source) b req with
         totalAmount := acc.totalAmount }] := by
    rw [hdb', record_onboarding_event_orders]
    show (rsAfterPurge db b source).orders ++ _ = _
    rw [rsAfterPurge_orders]
  refine ⟨?_, ?_, ?_⟩
  · intro r hr hrdemo o ho hoid hob
    rw [hdb', record_onboarding_event_sales] at hr
    rcases List.mem_append.mp hr with h1 | h2
    · -- r survived the purge filter
      rw [rsAfterHeader_sales, rsAfterPurge_real hdemo] at h1
      obtain ⟨hrmem, hkeep⟩ := List.mem_filter.mp h1
      have hnot : isDemoSaleRowOf db.orders b r = false := by
        simpa using hkeep
      unfold isDemoSaleRowOf at hnot
      rw [hrdemo] at hnot
      simp only [Bool.true_and] at hnot
      have hnone : ∀ o ∈ db.orders, ¬(o.id = r.orderId ∧ o.businessId = b) := by
        intro o' ho'
        have := List.any_eq_false.mp hnot o' ho'
        simpa using this
      rw [horders] at ho
      rcases List.mem_append.mp ho with ho1 | ho2
      · exact hnone o ho1 ⟨hoid, hob⟩
      · -- o is the freshly inserted header: its id is larger than any id a
        -- surviving row can reference
        obtain ⟨o0, ho0, hid0⟩ := hwf.2 r hrmem
        have hle : o0.id ≤ maxOrderId db := mem_le_maxOrderId db o0 ho0
        have hordne : db.orders.isEmpty = false := by
          cases hord : db.orders with
          | nil => rw [hord] at ho0; exact absurd ho0 (List.not_mem_nil o0)
          | cons a t => rfl
        have hoid2 : o.id = maxOrderId db + 1 := by
          rw [List.mem_singleton.mp ho2]
          show rsNextNumber (rsAfterPurge db b source) = maxOrderId db + 1
          unfold rsNextNumber
          rw [rsAfterPurge_real hdemo]
          have : (purgeDemo db b).orders.isEmpty = false := hordne
          rw [this]
          simp only [Bool.false_eq_true, if_false]
          rfl
        omega
    · rcases processItems_rows hloop r h2 with h3 | h3
      · exact absurd h3 (by simp [rsInitAcc])
      · rw [hdemo] at h3
        simp [h3] at hrdemo
  · intro o ho
    rw [horders]
    exact List.mem_append_left _ ho
  · intro p hp hnames
    rw [hdb', record_onboarding_event_products]
    show p ∈ acc.products
    have hinit : (rsInitAcc (rsAfterHeader db b source req)).products = db.products := by
      show (rsAfterHeader db b source req).products = db.products
      exact rsAfterHeader_products db b source req
    refine processItems_preserves_unrelated hloop ?_ p ?_ hnames
    · rw [hinit]
      exact hwf.1
    · rw [hinit]
      exact hp

/-- C4 witness: at the concrete second-real-sale call, no demo sales row of
business 1 remains, every pre-existing order (including the demo parent)
survives, and the stock of products outside the request is untouched. -/
theorem record_sale_purges_demo_sales_rows_witness :
    (∀ r ∈ afterRealSaleDB.sales, r.isDemo = true →
       ∀ o ∈ afterRealSaleDB.orders, o.id = r.orderId → o.businessId ≠ 1) ∧
    (∀ o ∈ demoWithProductDB.orders, o ∈ afterRealSaleDB.orders) ∧
    (∀ p ∈ demoWithProductDB.products,
       (∀ it ∈ realSaleReq.items, it.productName ≠ p.name) →
       p ∈ afterRealSaleDB.products) :=
  record_sale_purges_demo_sales_rows demoWithProductDB 1 none realSaleReq
    afterRealSaleDB
    { message := "Order recorded successfully!", orderCode := "ORD-00002",
      totalAmount := 20, totalProfit := 20, isDemo := false }
    ⟨by decide, by decide⟩ (by decide)
    (by
      norm_num [record_sale, rsAfterPurge, rsAfterHeader, rsNewOrder, rsNextNumber,
        rsInitAcc, processItems, processItem, findProduct, priceViolation, purgeDemo,
        demoFlag, hasRealSale, isDemoSaleRowOf, maxOrderId, maxSalesId, orderCodeOf,
        updProduct, record_onboarding_event, demoWithProductDB, demoOnlyDB, realSaleReq,
        afterRealSaleDB]
      decide)

end POS
